import Mathlib

set_option linter.unusedVariables false

namespace CustomerDaisy

/-!
Shallow embedding of the SMS verification core of this repository:
`src/export/src/daisy_sms.py` (class `DaisySMSManager`: `_make_request` response
decoding, `get_sms_code` polling loop, `cancel_verification`,
`mark_verification_done`, `rent_number`, `get_balance`) and the
assign-new-number flow (`CustomerDaisyApp._assign_new_number` in `src/main.py`
together with `CustomerDatabase.assign_new_number` in `src/src/customer_db.py`).

Modelling conventions:
* Python strings are `List Char`; the vendor protocol is ASCII, so Python's
  Unicode-aware `str.isdigit` is modelled by ASCII `Char.isDigit`.
* The vendor is an oracle mapping the index of the HTTP request (number of
  requests made so far) and the requested action to the reply body and the
  `X-Text` header; every request is appended to a chronological call log.
* Wall-clock time is a natural-number clock; `time.sleep(polling_interval)`
  advances it by `polling_interval`, other statements take no time.
* Request query parameters that do not influence control flow (`api_key`,
  `service`, `country`, `text=1`) are not represented.
-/

abbrev Str := List Char

/-- Python `str.isdigit` (ASCII fragment): nonempty and all digits. -/
def pyIsDigit (s : Str) : Bool := !s.isEmpty && s.all (fun c => c.isDigit)

/-- Python `':' in s`. -/
def hasColon (s : Str) : Bool := s.contains ':'

/-- Python `s.split(':')[0]`, which is also `s.split(':', 1)[0]`. -/
def firstToken (s : Str) : Str := s.takeWhile (fun c => decide (c ≠ ':'))

/-- Python `s.split(':', 1)[1]`, meaningful when `':' in s`. -/
def afterColon (s : Str) : Str := (s.dropWhile (fun c => decide (c ≠ ':'))).tail

/-- Python `s.strip()`: drop whitespace from both ends. -/
def pyStrip (s : Str) : Str :=
  ((s.dropWhile (fun c => c.isWhitespace)).reverse.dropWhile (fun c => c.isWhitespace)).reverse

/-- Regex word character (`\w`): alphanumeric or underscore. -/
def isWordChar (c : Char) : Bool := c.isAlphanum || c = '_'

/-- Maximal runs of word characters (accumulator holds the current run reversed). -/
def wordRunsAux : Str → Str → List Str
  | [], acc => if acc.isEmpty then [] else [acc.reverse]
  | c :: cs, acc =>
    if isWordChar c then wordRunsAux cs (c :: acc)
    else if acc.isEmpty then wordRunsAux cs []
    else acc.reverse :: wordRunsAux cs []

def wordRuns (s : Str) : List Str := wordRunsAux s []

/-- Model of `re.findall(r'\b\d{4,8}\b', s)` taking the first match: the first
maximal word-character run consisting solely of digits, of length 4 to 8
(a digit run bounded by `\b` on both sides is exactly such a run). -/
def firstCodeToken (s : Str) : Option Str :=
  (wordRuns s).find? (fun r => pyIsDigit r && decide (4 ≤ r.length) && decide (r.length ≤ 8))

/- Wire-protocol status words (`daisy_sms.py` string literals). -/
def sSTATUS_OK : Str := "STATUS_OK".toList
def sSTATUS_WAIT_CODE : Str := "STATUS_WAIT_CODE".toList
def sSTATUS_CANCEL : Str := "STATUS_CANCEL".toList
def sNO_ACTIVATION : Str := "NO_ACTIVATION".toList
def sACCESS_NUMBER : Str := "ACCESS_NUMBER".toList
def sACCESS_CANCEL : Str := "ACCESS_CANCEL".toList
def sACCESS_READY : Str := "ACCESS_READY".toList
def sACCESS_ACTIVATION : Str := "ACCESS_ACTIVATION".toList
def sACCESS_BALANCE : Str := "ACCESS_BALANCE".toList
def sOK : Str := "OK".toList
def sREADY : Str := "READY".toList

/-- The dictionary `_make_request` builds from a reply: `raw_response`,
`full_message_text`, the parsed `status`/`data`, the `id`/`number` fields of an
`ACCESS_NUMBER` reply, and the `extracted_from` marker of the X-Text fallback. -/
structure ApiResponse where
  raw : Str
  fullText : Str
  status : Str
  data : Option Str
  vid : Option Str := none
  number : Option Str := none
  extracted : Bool := false
deriving DecidableEq

/-- Decoding logic of `DaisySMSManager._make_request` (daisy_sms.py lines
61-135) applied to the reply body `text` and the `X-Text` header `fullMsg`. -/
def parseResponse (text fullMsg : Str) : ApiResponse :=
  if hasColon text then
    let status := firstToken text
    let data := afterColon text
    if status = sACCESS_NUMBER ∧ ¬ data.isEmpty ∧ hasColon data then
      { raw := text, fullText := fullMsg, status := status, data := none,
        vid := some (firstToken data), number := some (firstToken (afterColon data)) }
    else if ¬ data.isEmpty ∧ pyIsDigit (firstToken data) then
      if 4 ≤ (firstToken data).length then
        { raw := text, fullText := fullMsg, status := sSTATUS_OK, data := some (firstToken data) }
      else
        { raw := text, fullText := fullMsg, status := status, data := some data }
    else
      { raw := text, fullText := fullMsg, status := status, data := some data }
  else if pyIsDigit text ∧ 4 ≤ text.length then
    { raw := text, fullText := fullMsg, status := sSTATUS_OK, data := some text }
  else if ¬ fullMsg.isEmpty then
    match firstCodeToken fullMsg with
    | some code =>
      { raw := text, fullText := fullMsg, status := sSTATUS_OK, data := some code,
        extracted := true }
    | none => { raw := text, fullText := fullMsg, status := text, data := none }
  else
    { raw := text, fullText := fullMsg, status := text, data := none }


/-- Local verification status strings: `'rented'`, `'completed'`, `'cancelled'`
(the only values the code ever stores). -/
inductive VStatus where
  | rented
  | completed
  | cancelled
deriving DecidableEq

/-- One entry of `active_verifications` (the dict built in `rent_number` and
mutated by `get_sms_code` / `cancel_verification`).  `smsCode = none` models the
`sms_code` key being absent. -/
structure Verification where
  status : VStatus
  smsCode : Option Str := none
  createdAt : Nat := 0
  timeoutAt : Option Nat := none
  completedAt : Option Nat := none
  cancelledAt : Option Nat := none
deriving DecidableEq

/-- Vendor-facing HTTP requests, identified by `action` plus the `status`
parameter of `setStatus` (`'6'` = done, `'8'` = cancel). -/
inductive ApiAction where
  | getBalance
  | getNumber
  | getStatus
  | setStatusDone
  | setStatusCancel
deriving DecidableEq

/-- A vendor reply: body text plus the `X-Text` header. -/
structure Reply where
  body : Str
  header : Str := []
deriving DecidableEq

/-- The vendor, as a deterministic oracle: reply to the `n`-th request
(0-based, counted over all requests this manager has made) of a given action. -/
abbrev Oracle := Nat → ApiAction → Reply

/-- Manager state projected onto one known verification: the verification's
dict entry, the clock, and the chronological log of vendor requests.  All the
operations below only ever touch the entry of the id they are given, so this
single-entry projection is faithful for per-verification claims. -/
structure MgrState where
  verif : Verification
  now : Nat := 0
  calls : List ApiAction := []
deriving DecidableEq

/-- Number of vendor-facing cancel requests (`setStatus` with `status=8`) in a log. -/
def countCancel (l : List ApiAction) : Nat :=
  l.countP (fun a => decide (a = ApiAction.setStatusCancel))

/-- The decoded reply `_make_request` produces for the `n`-th vendor request
when it is of action `a`: the oracle's reply body and `X-Text` header, decoded
by `parseResponse`. -/
def parseAt (oracle : Oracle) (n : Nat) (a : ApiAction) : ApiResponse :=
  parseResponse (oracle n a).body (oracle n a).header

/-- The state change of `_make_request`: the request is appended to the log. -/
def logCall (a : ApiAction) (s : MgrState) : MgrState :=
  { s with calls := s.calls ++ [a] }

/-- Model of `cancel_verification` (daisy_sms.py lines 430-457) for a known id: if the
local status is already `'cancelled'`, return `True` with no request; otherwise
send `setStatus=8` and mark cancelled exactly on an `ACCESS_CANCEL` reply
(`ACCESS_READY` — already finalized server-side — and anything else return
`False` and leave the local entry unchanged). -/
def cancelVerification (oracle : Oracle) (s : MgrState) : Bool × MgrState :=
  if s.verif.status = VStatus.cancelled then
    (true, s)
  else
    let resp := parseAt oracle s.calls.length ApiAction.setStatusCancel
    let s1 := logCall ApiAction.setStatusCancel s
    if resp.status = sACCESS_CANCEL then
      let v := { s1.verif with status := VStatus.cancelled, cancelledAt := some s1.now }
      (true, { s1 with verif := v })
    else if resp.status = sACCESS_READY then
      (false, s1)
    else
      (false, s1)

/-- Model of `mark_verification_done` (lines 414-428): send `setStatus=6`; succeed on an
`ACCESS_ACTIVATION` reply.  Does not touch the verification entry. -/
def markVerificationDone (oracle : Oracle) (s : MgrState) : Bool × MgrState :=
  let resp := parseAt oracle s.calls.length ApiAction.setStatusDone
  (resp.status = sACCESS_ACTIVATION, logCall ApiAction.setStatusDone s)

/-- The completion step shared by the three code-found branches of
`get_sms_code`: set status `'completed'`, store the code, record
`completed_at`, then best-effort `mark_verification_done`, and return the code. -/
def completeWith (oracle : Oracle) (code : Str) (s : MgrState) : Option Str × MgrState :=
  let v := { s.verif with status := VStatus.completed, smsCode := some code, completedAt := some s.now }
  (some code, (markVerificationDone oracle { s with verif := v }).2)

/-- The timeout test at the top of each polling iteration
(`if timeout_at and datetime.now() > timeout_at`). -/
def timedOut (s : MgrState) : Bool :=
  match s.verif.timeoutAt with
  | some t => decide (s.now > t)
  | none => false

/-- Post-loop epilogue of `get_sms_code` (lines 402-412): after exhausting
`max_attempts`, cancel only when the status is not `'cancelled'` and this was a
multi-attempt operation (`max_attempts > 1`); always return `None`. -/
def pollExhausted (oracle : Oracle) (maxAttempts : Nat) (s : MgrState) : Option Str × MgrState :=
  if s.verif.status ≠ VStatus.cancelled ∧ maxAttempts > 1 then
    (none, (cancelVerification oracle s).2)
  else
    (none, s)

/-- The `for attempt in range(max_attempts)` loop of `get_sms_code`
(lines 298-412), by remaining iterations.  Each iteration: timeout check, then
`getStatus`, then the `STATUS_OK` / `STATUS_WAIT_CODE` / `STATUS_CANCEL` /
`NO_ACTIVATION` / raw-response branches; `time.sleep(polling_interval)`
advances the clock by `interval`. -/
def pollLoop (oracle : Oracle) (interval maxAttempts : Nat) :
    Nat → MgrState → Option Str × MgrState
  | 0, s => pollExhausted oracle maxAttempts s
  | n + 1, s =>
    if timedOut s then
      (none, (cancelVerification oracle s).2)
    else
      let resp := parseAt oracle s.calls.length ApiAction.getStatus
      let s1 := logCall ApiAction.getStatus s
      if resp.status = sSTATUS_OK then
        match resp.data with
        | some code =>
          if ¬ code.isEmpty then
            completeWith oracle code s1
          else
            pollLoop oracle interval maxAttempts n s1
        | none => pollLoop oracle interval maxAttempts n s1
      else if resp.status = sSTATUS_WAIT_CODE then
        pollLoop oracle interval maxAttempts n { s1 with now := s1.now + interval }
      else if resp.status = sSTATUS_CANCEL then
        (none, { s1 with verif := { s1.verif with status := VStatus.cancelled } })
      else if resp.status = sNO_ACTIVATION then
        (none, s1)
      else
        if hasColon resp.raw then
          let potential := pyStrip (firstToken (afterColon resp.raw))
          if pyIsDigit potential ∧ 4 ≤ potential.length then
            completeWith oracle potential s1
          else
            pollLoop oracle interval maxAttempts n { s1 with now := s1.now + interval }
        else if pyIsDigit resp.status ∧ 4 ≤ resp.status.length then
          completeWith oracle resp.status s1
        else
          pollLoop oracle interval maxAttempts n { s1 with now := s1.now + interval }

/-- Model of `get_sms_code` (lines 272-412) for a known id: short-circuit on
`'cancelled'`; on `'completed'` return the cached code when it is truthy
(nonempty) — otherwise fall through to the loop, exactly as the source does. -/
def getSmsCode (oracle : Oracle) (interval maxAttempts : Nat) (s : MgrState) :
    Option Str × MgrState :=
  if s.verif.status = VStatus.cancelled then
    (none, s)
  else if s.verif.status = VStatus.completed ∧ ¬ (s.verif.smsCode.getD []).isEmpty then
    (some (s.verif.smsCode.getD []), s)
  else
    pollLoop oracle interval maxAttempts maxAttempts s

/-- Digit string to number (`int`-style evaluation of an all-digit string). -/
def digitsToNat (s : Str) : Nat :=
  s.foldl (fun acc c => 10 * acc + (c.toNat - '0'.toNat)) 0

/-- Model of Python `float()` on the plain decimal literals the vendor sends
(`"5"`, `"10.50"`, ...), as an exact rational.  The balance values compared in
`rent_number` are short decimals, on which binary-float comparison agrees with
exact rational comparison, so `ℚ` is a faithful model here. -/
def parseDecimal (s : Str) : Option ℚ :=
  if pyIsDigit s then
    some (mkRat (digitsToNat s) 1)
  else
    let ip := s.takeWhile (fun c => decide (c ≠ '.'))
    let rest := s.dropWhile (fun c => decide (c ≠ '.'))
    match rest with
    | '.' :: fp =>
      if pyIsDigit ip ∧ pyIsDigit fp then
        some (mkRat (digitsToNat ip * 10 ^ fp.length + digitsToNat fp) (10 ^ fp.length))
      else
        none
    | _ => none


/-- One phone entry of a customer record (`customer_db.py` `assign_new_number`). -/
structure PhoneEntry where
  phoneNumber : Str
  verificationId : Str
  isPrimary : Bool
deriving DecidableEq

/-- The slice of a customer record touched by `assign_new_number`. -/
structure CustomerRecord where
  phoneNumbers : List PhoneEntry
  primaryPhone : Str
  primaryVerificationId : Str
deriving DecidableEq

/-- Model of `CustomerDatabase.assign_new_number` (customer_db.py lines 772-803) for a
known customer: mark every existing phone non-primary, append the new one as
primary, repoint `primary_phone` / `primary_verification_id`.  No verification
is contacted or cancelled here. -/
def dbAssignNewNumber (c : CustomerRecord) (phoneNumber verificationId : Str) : CustomerRecord :=
  { phoneNumbers := (c.phoneNumbers.map (fun p => { p with isPrimary := false })) ++
      [{ phoneNumber := phoneNumber, verificationId := verificationId, isPrimary := true }],
    primaryPhone := phoneNumber,
    primaryVerificationId := verificationId }

/-- Application-level state for the assign-new-number flow: the SMS manager
(projected onto the customer's current verification, i.e. the entry the spec
says must be cancelled first), the entry a successful rental adds, the balance
cache (`_balance_cache`; `none` = absent or stale), and the customer record. -/
structure AppState where
  mgr : MgrState
  newVerif : Option Verification := none
  balanceCache : Option ℚ := none
  customer : CustomerRecord
deriving DecidableEq

/-- A vendor request issued from the app state. -/
def appRequest (oracle : Oracle) (a : ApiAction) (st : AppState) : ApiResponse × AppState :=
  (parseAt oracle st.mgr.calls.length a, { st with mgr := logCall a st.mgr })

/-- Model of `get_balance` (daisy_sms.py lines 144-169): serve from cache when fresh,
else request `getBalance`; on an `ACCESS_BALANCE` reply parse and cache the
amount, on a parse failure or any other reply return `0.0` uncached. -/
def getBalanceApp (oracle : Oracle) (st : AppState) : ℚ × AppState :=
  match st.balanceCache with
  | some b => (b, st)
  | none =>
    let p := appRequest oracle ApiAction.getBalance st
    if p.1.status = sACCESS_BALANCE then
      match p.1.data.bind parseDecimal with
      | some b => (b, { p.2 with balanceCache := some b })
      | none => (0, p.2)
    else
      (0, p.2)

/-- Model of `rent_number` (lines 199-270): pre-check the balance against `max_price`,
then `getNumber`; on `ACCESS_NUMBER` with truthy id and number, store a fresh
verification entry (`status='rented'`, `timeout_at = now + verification_timeout`)
and return `(id, number)`; every rejection branch returns `None`. -/
def rentNumber (oracle : Oracle) (maxPrice : ℚ) (verificationTimeout : Nat) (st : AppState) :
    Option (Str × Str) × AppState :=
  let b := getBalanceApp oracle st
  if b.1 < maxPrice then
    (none, b.2)
  else
    let p := appRequest oracle ApiAction.getNumber b.2
    if p.1.status = sACCESS_NUMBER then
      match p.1.vid, p.1.number with
      | some vid, some num =>
        if ¬ vid.isEmpty ∧ ¬ num.isEmpty then
          let v : Verification := { status := VStatus.rented, createdAt := p.2.mgr.now,
                                    timeoutAt := some (p.2.mgr.now + verificationTimeout) }
          (some (vid, num), { p.2 with newVerif := some v })
        else
          (none, p.2)
      | _, _ => (none, p.2)
    else
      (none, p.2)

/-- Model of `CustomerDaisyApp._assign_new_number` (main.py lines 1817-1847): rent a new
number via `create_verification` (= `rent_number` plus console output); on
success update the customer record via `CustomerDatabase.assign_new_number`; on
failure return with nothing changed.  The optional interactive wait-for-SMS
prompt that follows is presentation and not modelled.  Note: the customer's
current verification is never cancelled anywhere in this flow. -/
def appAssignNewNumber (oracle : Oracle) (maxPrice : ℚ) (verificationTimeout : Nat)
    (st : AppState) : AppState :=
  let r := rentNumber oracle maxPrice verificationTimeout st
  match r.1 with
  | none => r.2
  | some (vid, num) => { r.2 with customer := dbAssignNewNumber r.2.customer num vid }

/-! ### Sanity checks of the decoder on concrete protocol strings -/

example : (parseResponse ("STATUS_OK:123456".toList) []).status = sSTATUS_OK := by rfl
example : (parseResponse ("STATUS_OK:123456".toList) []).data = some ("123456".toList) := by rfl
example : (parseResponse ("OK:789012:junk".toList) []).data = some ("789012".toList) := by rfl
example : (parseResponse ("STATUS_OK:123".toList) []).status = sSTATUS_OK := by rfl
example : (parseResponse ("STATUS_OK:123".toList) []).data = some ("123".toList) := by rfl
example : (parseResponse ("OK:123".toList) []).status = sOK := by rfl
example : (parseResponse ("STATUS_WAIT_CODE".toList) []).status = sSTATUS_WAIT_CODE := by rfl
example : (parseResponse ("123456".toList) []).status = sSTATUS_OK := by rfl
example : (parseResponse ("ACCESS_NUMBER:999:13476711222".toList) []).vid = some ("999".toList) := by rfl
example : (parseResponse ("HELLO".toList) ("code 5523 sent".toList)).data = some ("5523".toList) := by rfl
example : parseDecimal ("5".toList) = some (mkRat 5 1) := by decide
example : parseDecimal ("0.50".toList) = some (mkRat 1 2) := by decide

/-! ### Helper facts about the protocol's status words -/

lemma noact_ne_ok : sNO_ACTIVATION ≠ sSTATUS_OK := by decide

lemma noact_ne_wait : sNO_ACTIVATION ≠ sSTATUS_WAIT_CODE := by decide

lemma noact_ne_cancel : sNO_ACTIVATION ≠ sSTATUS_CANCEL := by decide

lemma wait_ne_ok : sSTATUS_WAIT_CODE ≠ sSTATUS_OK := by decide

/-! ### List/string helper lemmas for the classifier -/

lemma takeWhile_append_of_all {p : Char → Bool} {xs : Str} (ys : Str) (h : xs.all p = true) :
    (xs ++ ys).takeWhile p = xs ++ ys.takeWhile p := by
  induction xs with
  | nil => simp
  | cons a l ih =>
    simp only [List.all_cons, Bool.and_eq_true] at h
    simp [List.takeWhile_cons, h.1, ih h.2]

lemma dropWhile_append_of_all {p : Char → Bool} {xs : Str} (ys : Str) (h : xs.all p = true) :
    (xs ++ ys).dropWhile p = ys.dropWhile p := by
  induction xs with
  | nil => simp
  | cons a l ih =>
    simp only [List.all_cons, Bool.and_eq_true] at h
    simp [List.dropWhile_cons, h.1, ih h.2]

lemma hasColon_append (head t : Str) : hasColon (head ++ ':' :: t) = true := by
  simp [hasColon, List.contains, List.elem_eq_mem]

lemma firstToken_append {head : Str} (t : Str)
    (h : head.all (fun c => decide (c ≠ ':')) = true) :
    firstToken (head ++ ':' :: t) = head := by
  unfold firstToken
  rw [takeWhile_append_of_all _ h]
  simp [List.takeWhile_cons]

lemma afterColon_append {head : Str} (t : Str)
    (h : head.all (fun c => decide (c ≠ ':')) = true) :
    afterColon (head ++ ':' :: t) = t := by
  unfold afterColon
  rw [dropWhile_append_of_all _ h]
  simp [List.dropWhile_cons]

lemma pyIsDigit_ne_nil {s : Str} (h : pyIsDigit s = true) : s ≠ [] := by
  unfold pyIsDigit at h
  simp only [Bool.and_eq_true, Bool.not_eq_true'] at h
  intro e
  subst e
  simp at h

lemma all_digits_ne_colon {s : Str} (h : pyIsDigit s = true) :
    s.all (fun c => decide (c ≠ ':')) = true := by
  unfold pyIsDigit at h
  simp only [Bool.and_eq_true, List.all_eq_true] at h ⊢
  intro c hc
  have hd := h.2 c hc
  simp only [decide_eq_true_iff]
  intro e
  subst e
  exact absurd hd (by decide)

/-! ### Claims -/

/-- C3: for a verification whose local status is `'cancelled'`, every `Poll`
(`get_sms_code`) call returns `None` with the state — in particular the request
log — unchanged: no vendor request of any kind is issued. -/
theorem poll_cancelled_short_circuit (oracle : Oracle) (interval maxAttempts : Nat)
    (s : MgrState) (h : s.verif.status = VStatus.cancelled) :
    getSmsCode oracle interval maxAttempts s = (none, s) := by
  simp [getSmsCode, h]

theorem poll_cancelled_short_circuit_witness :
    getSmsCode (fun _ _ => { body := sSTATUS_WAIT_CODE }) 3 40
      { verif := { status := VStatus.cancelled } } =
    (none, { verif := { status := VStatus.cancelled } }) :=
  poll_cancelled_short_circuit _ _ _ _ rfl

/-- C4: for a verification whose local status is `'completed'` and whose stored
`sms_code` is a nonempty string, every `Poll` call returns exactly that cached
code with the state — in particular the request log — unchanged. -/
theorem poll_completed_returns_cached_code (oracle : Oracle) (interval maxAttempts : Nat)
    (s : MgrState) (c : Str) (h : s.verif.status = VStatus.completed)
    (hc : s.verif.smsCode = some c) (hne : c ≠ []) :
    getSmsCode oracle interval maxAttempts s = (some c, s) := by
  simp [getSmsCode, h, hc, List.isEmpty_iff, hne]

theorem poll_completed_returns_cached_code_witness :
    getSmsCode (fun _ _ => { body := sSTATUS_WAIT_CODE }) 3 40
      { verif := { status := VStatus.completed, smsCode := some ("482913".toList) } } =
    (some ("482913".toList),
      { verif := { status := VStatus.completed, smsCode := some ("482913".toList) } }) :=
  poll_completed_returns_cached_code _ _ _ _ _ rfl rfl (by decide)

/-- C9: a `Poll` of a `'rented'`, non-timed-out verification whose first
`getStatus` reply classifies as `NO_ACTIVATION` returns `None`, leaves the
verification entry unchanged (still `'rented'`), and issues exactly one vendor
request — the `getStatus` itself, so no cancel request. -/
theorem poll_no_activation_frame (oracle : Oracle) (interval maxAttempts : Nat) (s : MgrState)
    (hs : s.verif.status = VStatus.rented) (ht : timedOut s = false) (ha : 1 ≤ maxAttempts)
    (hr : (parseAt oracle s.calls.length ApiAction.getStatus).status = sNO_ACTIVATION) :
    getSmsCode oracle interval maxAttempts s = (none, logCall ApiAction.getStatus s) := by
  obtain ⟨n, rfl⟩ : ∃ n, maxAttempts = n + 1 := ⟨maxAttempts - 1, by omega⟩
  simp [getSmsCode, hs, pollLoop, ht, hr, noact_ne_ok, noact_ne_wait, noact_ne_cancel]

theorem poll_no_activation_frame_witness :
    getSmsCode (fun _ _ => { body := sNO_ACTIVATION }) 3 5
      { verif := { status := VStatus.rented, timeoutAt := some 180 } } =
    (none, logCall ApiAction.getStatus
      { verif := { status := VStatus.rented, timeoutAt := some 180 } }) :=
  poll_no_activation_frame _ 3 5 _ rfl rfl (by decide) rfl

/-- C5: any vendor reply of the shape `head:digits` or `head:digits:junk` with
`head ∈ {STATUS_OK, OK, READY, ACCESS_ACTIVATION}` and `digits` an all-digit
run of length at least 4 decodes to the code-ready result: status `STATUS_OK`
with `data` exactly the digit run after the first colon. -/
theorem classifier_code_ready_roundtrip (head digits rest fm : Str)
    (hh : head = sSTATUS_OK ∨ head = sOK ∨ head = sREADY ∨ head = sACCESS_ACTIVATION)
    (hd : pyIsDigit digits = true) (hl : 4 ≤ digits.length)
    (hr : rest = [] ∨ ∃ r, rest = ':' :: r) :
    parseResponse (head ++ ':' :: (digits ++ rest)) fm =
      { raw := head ++ ':' :: (digits ++ rest), fullText := fm,
        status := sSTATUS_OK, data := some digits } := by
  have hcol : head.all (fun c => decide (c ≠ ':')) = true := by
    rcases hh with h | h | h | h <;> subst h <;> decide
  have hft := firstToken_append (digits ++ rest) hcol
  have hac := afterColon_append (digits ++ rest) hcol
  have hdig : firstToken (digits ++ rest) = digits := by
    unfold firstToken
    rw [takeWhile_append_of_all _ (all_digits_ne_colon hd)]
    rcases hr with h | ⟨r, h⟩ <;> subst h <;> simp [List.takeWhile_cons]
  have hnum : head ≠ sACCESS_NUMBER := by
    rcases hh with h | h | h | h <;> subst h <;> decide
  have hdne : ¬ (digits ++ rest).isEmpty = true := by
    simp [List.isEmpty_iff, List.append_eq_nil]
    intro e _
    exact pyIsDigit_ne_nil hd e
  simp only [parseResponse, hasColon_append, hft, hac, hdig, hnum, hdne, hd, hl,
    if_true, false_and, if_false, not_false_eq_true, true_and, and_true, if_pos]
  simp

theorem classifier_code_ready_roundtrip_witness :
    parseResponse (sOK ++ ':' :: ("1234".toList ++ [])) [] =
      { raw := sOK ++ ':' :: ("1234".toList ++ []), fullText := [],
        status := sSTATUS_OK, data := some ("1234".toList) } :=
  classifier_code_ready_roundtrip sOK ("1234".toList) [] []
    (Or.inr (Or.inl rfl)) (by decide) (by decide) (Or.inl rfl)

/-- C6 counterexample: for the reply `STATUS_OK:123` the decoder does not
reject the 3-digit payload — it keeps status `STATUS_OK` with data `123`
(the `≥ 4` guard applies only to the head-rewriting branch), and a single-shot
`Poll` of a rented, non-timed-out verification receiving that reply completes
with code `123`.  This refutes the claim that classification never yields a
code-ready outcome and that no poll completes with `123`. -/
theorem classifier_short_code_accepted_cex :
    (parseResponse ("STATUS_OK:123".toList) []).status = sSTATUS_OK ∧
    (parseResponse ("STATUS_OK:123".toList) []).data = some ("123".toList) ∧
    (getSmsCode (fun _ _ => { body := "STATUS_OK:123".toList }) 3 1
      { verif := { status := VStatus.rented, timeoutAt := some 180 } }).1 =
      some ("123".toList) ∧
    (getSmsCode (fun _ _ => { body := "STATUS_OK:123".toList }) 3 1
      { verif := { status := VStatus.rented, timeoutAt := some 180 } }).2.verif.status =
      VStatus.completed :=
  ⟨rfl, rfl, rfl, rfl⟩

/-- C6 amended: for the vendor reply `STATUS_OK:123` the decoder keeps status
`STATUS_OK` with data `123` (the 4-digit minimum applies only when rewriting
variant heads like `OK:`/`READY:`), and a `Poll` of a `'rented'`, non-timed-out
verification receiving that reply completes immediately: it returns `"123"`,
sets status `'completed'`, and stores `sms_code = "123"`. -/
theorem short_code_status_ok_completes (oracle : Oracle) (interval maxAttempts : Nat)
    (s : MgrState) (hs : s.verif.status = VStatus.rented) (ht : timedOut s = false)
    (ha : 1 ≤ maxAttempts)
    (hr : oracle s.calls.length ApiAction.getStatus = { body := "STATUS_OK:123".toList }) :
    (getSmsCode oracle interval maxAttempts s).1 = some ("123".toList) ∧
    (getSmsCode oracle interval maxAttempts s).2.verif.status = VStatus.completed ∧
    (getSmsCode oracle interval maxAttempts s).2.verif.smsCode = some ("123".toList) := by
  obtain ⟨n, rfl⟩ : ∃ n, maxAttempts = n + 1 := ⟨maxAttempts - 1, by omega⟩
  have hp : parseAt oracle s.calls.length ApiAction.getStatus =
      { raw := "STATUS_OK:123".toList, fullText := [], status := sSTATUS_OK,
        data := some ("123".toList) } := by
    unfold parseAt
    rw [hr]
    rfl
  simp [getSmsCode, hs, pollLoop, ht, hp, completeWith, markVerificationDone, logCall]

theorem short_code_status_ok_completes_witness :
    (getSmsCode (fun _ _ => { body := "STATUS_OK:123".toList }) 3 1
      { verif := { status := VStatus.rented, timeoutAt := some 180 } }).1 =
      some ("123".toList) ∧
    (getSmsCode (fun _ _ => { body := "STATUS_OK:123".toList }) 3 1
      { verif := { status := VStatus.rented, timeoutAt := some 180 } }).2.verif.status =
      VStatus.completed ∧
    (getSmsCode (fun _ _ => { body := "STATUS_OK:123".toList }) 3 1
      { verif := { status := VStatus.rented, timeoutAt := some 180 } }).2.verif.smsCode =
      some ("123".toList) :=
  short_code_status_ok_completes _ 3 1 _ rfl rfl (by decide) rfl

/-- C7: `cancel_verification` is idempotent from the caller's viewpoint.  For a
known verification that is not locally cancelled: if the vendor confirms
(`ACCESS_CANCEL`), the call returns `True`, marks the entry cancelled, and adds
exactly one vendor request (the cancel itself); a second call then returns
`True` with no further request and no state change.  If the vendor reports the
rental already finalized (`ACCESS_READY`), the call returns `False` and leaves
the verification entry unchanged. -/
theorem cancel_idempotent_spec (oracle : Oracle) (s : MgrState)
    (h : s.verif.status ≠ VStatus.cancelled) :
    ((parseAt oracle s.calls.length ApiAction.setStatusCancel).status = sACCESS_CANCEL →
      ∃ s1 : MgrState,
        cancelVerification oracle s = (true, s1) ∧
        s1.verif.status = VStatus.cancelled ∧
        s1.calls = s.calls ++ [ApiAction.setStatusCancel] ∧
        cancelVerification oracle s1 = (true, s1)) ∧
    ((parseAt oracle s.calls.length ApiAction.setStatusCancel).status = sACCESS_READY →
      cancelVerification oracle s = (false, logCall ApiAction.setStatusCancel s) ∧
      (logCall ApiAction.setStatusCancel s).verif = s.verif) := by
  constructor
  · intro hc
    refine ⟨{ verif := { s.verif with status := VStatus.cancelled, cancelledAt := some s.now },
              now := s.now, calls := s.calls ++ [ApiAction.setStatusCancel] }, ?_, rfl, rfl, ?_⟩
    · simp [cancelVerification, h, hc, logCall]
    · simp [cancelVerification]
  · intro hc
    have hne : sACCESS_READY ≠ sACCESS_CANCEL := by decide
    exact ⟨by simp [cancelVerification, h, hc, hne, logCall], rfl⟩

theorem cancel_idempotent_spec_witness :
    ((parseAt (fun _ _ => { body := sACCESS_CANCEL })
        ({ verif := { status := VStatus.rented } } : MgrState).calls.length
        ApiAction.setStatusCancel).status = sACCESS_CANCEL →
      ∃ s1 : MgrState,
        cancelVerification (fun _ _ => { body := sACCESS_CANCEL })
          { verif := { status := VStatus.rented } } = (true, s1) ∧
        s1.verif.status = VStatus.cancelled ∧
        s1.calls = ({ verif := { status := VStatus.rented } } : MgrState).calls ++
          [ApiAction.setStatusCancel] ∧
        cancelVerification (fun _ _ => { body := sACCESS_CANCEL }) s1 = (true, s1)) ∧
    ((parseAt (fun _ _ => { body := sACCESS_CANCEL })
        ({ verif := { status := VStatus.rented } } : MgrState).calls.length
        ApiAction.setStatusCancel).status = sACCESS_READY →
      cancelVerification (fun _ _ => { body := sACCESS_CANCEL })
        { verif := { status := VStatus.rented } } =
        (false, logCall ApiAction.setStatusCancel { verif := { status := VStatus.rented } }) ∧
      (logCall ApiAction.setStatusCancel
        ({ verif := { status := VStatus.rented } } : MgrState)).verif =
        ({ verif := { status := VStatus.rented } } : MgrState).verif) :=
  cancel_idempotent_spec (fun _ _ => { body := sACCESS_CANCEL })
    { verif := { status := VStatus.rented } } (by decide)

/-! ### Counting cancel requests -/

lemma countCancel_append (l1 l2 : List ApiAction) :
    countCancel (l1 ++ l2) = countCancel l1 + countCancel l2 :=
  List.countP_append _ l1 l2

lemma countCancel_replicate_get (n : Nat) :
    countCancel (List.replicate n ApiAction.getStatus) = 0 := by
  induction n with
  | zero => rfl
  | succ n ih => simp [List.replicate_succ, countCancel, List.countP_cons]

lemma countCancel_single_cancel : countCancel [ApiAction.setStatusCancel] = 1 := by decide

lemma countCancel_single_get : countCancel [ApiAction.getStatus] = 0 := by decide

/-- A polling run in which every `getStatus` reply classifies as
`STATUS_WAIT_CODE` and the timeout never passes just sleeps through all its
iterations: it ends in the post-loop epilogue with the clock advanced by one
interval per attempt and one `getStatus` request logged per attempt. -/
lemma pollLoop_all_wait (oracle : Oracle) (interval M T : Nat)
    (hW : ∀ k, (parseAt oracle k ApiAction.getStatus).status = sSTATUS_WAIT_CODE) :
    ∀ (n : Nat) (s : MgrState), s.verif.timeoutAt = some T → s.now + n * interval ≤ T →
      pollLoop oracle interval M n s =
        pollExhausted oracle M
          { verif := s.verif, now := s.now + n * interval,
            calls := s.calls ++ List.replicate n ApiAction.getStatus } := by
  intro n
  induction n with
  | zero =>
    intro s hT hle
    simp [pollLoop]
  | succ n ih =>
    intro s hT hle
    have hto : timedOut s = false := by
      simp only [timedOut, hT, decide_eq_false_iff_not, not_lt]
      omega
    have hle2 : s.now + interval + n * interval ≤ T := by
      have h2 : s.now + interval + n * interval = s.now + (n + 1) * interval := by ring
      rw [h2]
      exact hle
    have hrec := ih { verif := s.verif, now := s.now + interval,
                      calls := s.calls ++ [ApiAction.getStatus] } hT hle2
    rw [pollLoop]
    simp only [hto, Bool.false_eq_true, if_false, hW, wait_ne_ok, if_true, if_neg,
      logCall]
    rw [hrec]
    have hnow : s.now + interval + n * interval = s.now + (n + 1) * interval := by
      ring
    have hcalls : s.calls ++ [ApiAction.getStatus] ++ List.replicate n ApiAction.getStatus =
        s.calls ++ List.replicate (n + 1) ApiAction.getStatus := by
      simp [List.replicate_succ, List.append_assoc]
    rw [hnow, hcalls]

/-- C1: polling a `'rented'` verification whose timeout never passes, with
every `getStatus` reply classifying as `STATUS_WAIT_CODE` and the vendor
confirming cancels, returns `None`; afterwards the status is `'cancelled'`
with exactly one vendor-facing cancel request if and only if `attempts > 1`,
and for `attempts = 1` the status is still `'rented'` with no cancel request. -/
theorem poll_wait_exhaustion_cancels_iff_multi (oracle : Oracle) (interval attempts T : Nat)
    (s : MgrState) (hs : s.verif.status = VStatus.rented) (hT : s.verif.timeoutAt = some T)
    (hle : s.now + attempts * interval ≤ T) (ha : 1 ≤ attempts)
    (hW : ∀ k, (parseAt oracle k ApiAction.getStatus).status = sSTATUS_WAIT_CODE)
    (hC : ∀ k, (parseAt oracle k ApiAction.setStatusCancel).status = sACCESS_CANCEL) :
    (getSmsCode oracle interval attempts s).1 = none ∧
    (1 < attempts →
      (getSmsCode oracle interval attempts s).2.verif.status = VStatus.cancelled ∧
      countCancel (getSmsCode oracle interval attempts s).2.calls = countCancel s.calls + 1) ∧
    (attempts = 1 →
      (getSmsCode oracle interval attempts s).2.verif.status = VStatus.rented ∧
      countCancel (getSmsCode oracle interval attempts s).2.calls = countCancel s.calls) := by
  have hrun : getSmsCode oracle interval attempts s =
      pollExhausted oracle attempts
        { verif := s.verif, now := s.now + attempts * interval,
          calls := s.calls ++ List.replicate attempts ApiAction.getStatus } := by
    rw [getSmsCode]
    simp only [hs, if_neg, reduceCtorEq, false_and, if_false, not_false_eq_true]
    exact pollLoop_all_wait oracle interval attempts T hW attempts s hT hle
  rw [hrun]
  by_cases h1 : 1 < attempts
  · have hres : pollExhausted oracle attempts
        { verif := s.verif, now := s.now + attempts * interval,
          calls := s.calls ++ List.replicate attempts ApiAction.getStatus } =
        (none, { verif := { s.verif with status := VStatus.cancelled, cancelledAt := some (s.now + attempts * interval) }, now := s.now + attempts * interval, calls := (s.calls ++ List.replicate attempts ApiAction.getStatus) ++ [ApiAction.setStatusCancel] }) := by
      rw [pollExhausted, if_pos ⟨by simp [hs], h1⟩, cancelVerification,
        if_neg (by simp [hs]), if_pos (hC _)]
      rfl
    rw [hres]
    refine ⟨rfl, fun _ => ⟨rfl, ?_⟩, fun he => absurd he (by omega)⟩
    simp [countCancel_append, countCancel_replicate_get, countCancel_single_cancel]
  · have h1' : attempts = 1 := by omega
    subst h1'
    have hres : pollExhausted oracle 1
        { verif := s.verif, now := s.now + 1 * interval,
          calls := s.calls ++ List.replicate 1 ApiAction.getStatus } =
        (none, { verif := s.verif, now := s.now + 1 * interval,
                 calls := s.calls ++ List.replicate 1 ApiAction.getStatus }) := by
      rw [pollExhausted, if_neg]
      intro hand
      omega
    rw [hres]
    refine ⟨rfl, fun hlt => absurd hlt (by omega), fun _ => ⟨hs, ?_⟩⟩
    simp [countCancel_append, countCancel_replicate_get, countCancel_single_get]

theorem poll_wait_exhaustion_cancels_iff_multi_witness :
    ((getSmsCode (fun _ a => if a = ApiAction.getStatus then { body := sSTATUS_WAIT_CODE }
        else { body := sACCESS_CANCEL }) 3 3
      { verif := { status := VStatus.rented, timeoutAt := some 180 } }).1 = none ∧
    (1 < 3 →
      (getSmsCode (fun _ a => if a = ApiAction.getStatus then { body := sSTATUS_WAIT_CODE }
          else { body := sACCESS_CANCEL }) 3 3
        { verif := { status := VStatus.rented, timeoutAt := some 180 } }).2.verif.status =
        VStatus.cancelled ∧
      countCancel (getSmsCode (fun _ a => if a = ApiAction.getStatus then
          { body := sSTATUS_WAIT_CODE } else { body := sACCESS_CANCEL }) 3 3
        { verif := { status := VStatus.rented, timeoutAt := some 180 } }).2.calls =
        countCancel ({ verif := { status := VStatus.rented, timeoutAt := some 180 } } :
          MgrState).calls + 1) ∧
    ((3 : Nat) = 1 →
      (getSmsCode (fun _ a => if a = ApiAction.getStatus then { body := sSTATUS_WAIT_CODE }
          else { body := sACCESS_CANCEL }) 3 3
        { verif := { status := VStatus.rented, timeoutAt := some 180 } }).2.verif.status =
        VStatus.rented ∧
      countCancel (getSmsCode (fun _ a => if a = ApiAction.getStatus then
          { body := sSTATUS_WAIT_CODE } else { body := sACCESS_CANCEL }) 3 3
        { verif := { status := VStatus.rented, timeoutAt := some 180 } }).2.calls =
        countCancel ({ verif := { status := VStatus.rented, timeoutAt := some 180 } } :
          MgrState).calls)) :=
  poll_wait_exhaustion_cancels_iff_multi _ 3 3 180 _ rfl rfl (by decide) (by decide)
    (fun k => rfl) (fun k => rfl)

/-- C2: a `Poll` of a `'rented'` verification whose `timeout_at` already lies
in the past returns `None` after a single vendor request — the cancel itself,
no `getStatus` at all — and (with the vendor confirming) marks it
`'cancelled'`; moreover the timeout test is evaluated at the start of every
loop iteration, before the iteration's `getStatus` request. -/
theorem poll_timeout_supersedes_attempts (oracle : Oracle) (interval attempts T : Nat)
    (s : MgrState) (hs : s.verif.status = VStatus.rented) (hT : s.verif.timeoutAt = some T)
    (hpast : T < s.now) (ha : 1 ≤ attempts)
    (hC : (parseAt oracle s.calls.length ApiAction.setStatusCancel).status = sACCESS_CANCEL) :
    getSmsCode oracle interval attempts s =
      (none, { verif := { s.verif with status := VStatus.cancelled, cancelledAt := some s.now },
               now := s.now, calls := s.calls ++ [ApiAction.setStatusCancel] }) ∧
    (∀ (n : Nat) (s2 : MgrState), timedOut s2 = true →
      pollLoop oracle interval attempts (n + 1) s2 = (none, (cancelVerification oracle s2).2)) := by
  constructor
  · obtain ⟨n, rfl⟩ : ∃ n, attempts = n + 1 := ⟨attempts - 1, by omega⟩
    have hto : timedOut s = true := by
      simp only [timedOut, hT, decide_eq_true_iff]
      omega
    rw [getSmsCode]
    simp only [hs, reduceCtorEq, false_and, if_false, not_false_eq_true]
    rw [pollLoop]
    simp only [hto, if_true]
    rw [cancelVerification]
    simp only [hs, reduceCtorEq, if_false, hC, if_true, logCall]
  · intro n s2 h2
    rw [pollLoop]
    simp [h2]

theorem poll_timeout_supersedes_attempts_witness :
    (getSmsCode (fun _ _ => { body := sACCESS_CANCEL }) 3 5
      { verif := { status := VStatus.rented, timeoutAt := some 180 }, now := 200 } =
      (none, { verif := { status := VStatus.cancelled, timeoutAt := some 180,
                          cancelledAt := some 200 },
               now := 200, calls := [ApiAction.setStatusCancel] }) ∧
    (∀ (n : Nat) (s2 : MgrState), timedOut s2 = true →
      pollLoop (fun _ _ => { body := sACCESS_CANCEL }) 3 5 (n + 1) s2 =
        (none, (cancelVerification (fun _ _ => { body := sACCESS_CANCEL }) s2).2))) := by
  have h := poll_timeout_supersedes_attempts (fun _ _ => { body := sACCESS_CANCEL }) 3 5 180
    { verif := { status := VStatus.rented, timeoutAt := some 180 }, now := 200 }
    rfl rfl (by decide) (by decide) rfl
  exact h

/-! ### The completed-implies-stored-code invariant -/

/-- Any entry whose status is `'completed'` holds a truthy (nonempty) `sms_code`. -/
def CodeInv (v : Verification) : Prop :=
  v.status = VStatus.completed → ¬ (v.smsCode.getD []).isEmpty = true

lemma pyIsDigit_not_isEmpty {s : Str} (h : pyIsDigit s = true) : ¬ s.isEmpty = true := by
  simpa [List.isEmpty_iff] using pyIsDigit_ne_nil h

lemma codeInv_cancel (oracle : Oracle) (s : MgrState) (h : CodeInv s.verif) :
    CodeInv ((cancelVerification oracle s).2.verif) := by
  by_cases h1 : s.verif.status = VStatus.cancelled
  · simpa [cancelVerification, h1] using h
  · by_cases h2 : (parseAt oracle s.calls.length ApiAction.setStatusCancel).status = sACCESS_CANCEL
    · simp [cancelVerification, h1, h2, CodeInv, logCall]
    · by_cases h3 : (parseAt oracle s.calls.length ApiAction.setStatusCancel).status = sACCESS_READY
      · simpa [cancelVerification, h1, h2, h3, logCall] using h
      · simpa [cancelVerification, h1, h2, h3, logCall] using h

lemma codeInv_completeWith (oracle : Oracle) (code : Str) (s : MgrState)
    (hcode : ¬ code.isEmpty = true) :
    CodeInv ((completeWith oracle code s).2.verif) := by
  simp [completeWith, markVerificationDone, logCall, CodeInv, hcode]

lemma codeInv_pollLoop (oracle : Oracle) (interval M : Nat) :
    ∀ (n : Nat) (s : MgrState), CodeInv s.verif →
      CodeInv ((pollLoop oracle interval M n s).2.verif) := by
  intro n
  induction n with
  | zero =>
    intro s h
    by_cases hc : s.verif.status ≠ VStatus.cancelled ∧ M > 1
    · simpa [pollLoop, pollExhausted, hc] using codeInv_cancel oracle s h
    · simpa [pollLoop, pollExhausted, hc] using h
  | succ n ih =>
    intro s h
    rw [pollLoop]
    by_cases ht : timedOut s = true
    · simpa [ht] using codeInv_cancel oracle s h
    · have ht' : timedOut s = false := by
        exact Bool.eq_false_iff.mpr ht
      simp only [ht', Bool.false_eq_true, if_false]
      by_cases hok : (parseAt oracle s.calls.length ApiAction.getStatus).status = sSTATUS_OK
      · simp only [hok, if_true, if_pos]
        cases hdata : (parseAt oracle s.calls.length ApiAction.getStatus).data with
        | none => exact ih _ h
        | some code =>
          by_cases hne : ¬ code.isEmpty = true
          · simp only [hne, if_pos, not_false_eq_true]
            exact codeInv_completeWith oracle code _ hne
          · simp only [hne, if_neg, not_true_eq_false, if_false]
            exact ih _ h
      · simp only [hok, if_neg, not_false_eq_true, if_false]
        by_cases hw : (parseAt oracle s.calls.length ApiAction.getStatus).status = sSTATUS_WAIT_CODE
        · simp only [hw, if_true]
          exact ih _ h
        · simp only [hw, if_neg, not_false_eq_true, if_false]
          by_cases hcn : (parseAt oracle s.calls.length ApiAction.getStatus).status = sSTATUS_CANCEL
          · simp [hcn, CodeInv]
          · simp only [hcn, if_neg, not_false_eq_true, if_false]
            by_cases hna : (parseAt oracle s.calls.length ApiAction.getStatus).status = sNO_ACTIVATION
            · simpa [hna, logCall] using h
            · simp only [hna, if_neg, not_false_eq_true, if_false]
              by_cases hraw : hasColon (parseAt oracle s.calls.length ApiAction.getStatus).raw = true
              · simp only [hraw, if_true]
                by_cases hpot : pyIsDigit (pyStrip (firstToken (afterColon
                    (parseAt oracle s.calls.length ApiAction.getStatus).raw))) = true ∧
                    4 ≤ (pyStrip (firstToken (afterColon
                    (parseAt oracle s.calls.length ApiAction.getStatus).raw))).length
                · simp only [hpot, if_pos, and_true]
                  exact codeInv_completeWith oracle _ _ (pyIsDigit_not_isEmpty hpot.1)
                · simp only [hpot, if_neg, not_false_eq_true, if_false]
                  exact ih _ h
              · simp only [hraw, Bool.false_eq_true, if_false]
                by_cases hst : pyIsDigit (parseAt oracle s.calls.length ApiAction.getStatus).status =
                    true ∧ 4 ≤ (parseAt oracle s.calls.length ApiAction.getStatus).status.length
                · simp only [hst, if_pos, and_true]
                  exact codeInv_completeWith oracle _ _ (pyIsDigit_not_isEmpty hst.1)
                · simp only [hst, if_neg, not_false_eq_true, if_false]
                  exact ih _ h

lemma codeInv_getSmsCode (oracle : Oracle) (interval M : Nat) (s : MgrState)
    (h : CodeInv s.verif) : CodeInv ((getSmsCode oracle interval M s).2.verif) := by
  rw [getSmsCode]
  by_cases h1 : s.verif.status = VStatus.cancelled
  · rw [if_pos h1]
    exact h
  · rw [if_neg h1]
    by_cases h2 : s.verif.status = VStatus.completed ∧ ¬ (s.verif.smsCode.getD []).isEmpty = true
    · rw [if_pos h2]
      exact h
    · rw [if_neg h2]
      exact codeInv_pollLoop oracle interval M M s h

lemma getBalanceApp_newVerif (oracle : Oracle) (st : AppState) :
    (getBalanceApp oracle st).2.newVerif = st.newVerif := by
  simp only [getBalanceApp, appRequest]
  split
  · rfl
  · split
    · split
      · rfl
      · rfl
    · rfl

lemma rentNumber_fresh_rented (oracle : Oracle) (mp : ℚ) (vt : Nat) (st : AppState)
    (v : Verification) (h0 : st.newVerif = none)
    (h : (rentNumber oracle mp vt st).2.newVerif = some v) : v.status = VStatus.rented := by
  have hbal : (getBalanceApp oracle st).2.newVerif = none := by
    rw [getBalanceApp_newVerif oracle st, h0]
  simp only [rentNumber, appRequest] at h
  split at h
  · rw [hbal] at h
    cases h
  · split at h
    · split at h
      · split at h
        · simp only at h
          cases h
          rfl
        · simp only at h
          rw [hbal] at h
          cases h
      · simp only at h
        rw [hbal] at h
        cases h
    · simp only at h
      rw [hbal] at h
      cases h

/-- C10: in every reachable manager state, a verification marked `'completed'`
holds a truthy stored `sms_code`: the invariant `CodeInv` holds of freshly
rented entries and is preserved by `get_sms_code` (all three completion paths
store the code in the same step), `cancel_verification`, and
`mark_verification_done`; consequently, for any entry satisfying the invariant,
the `'completed'` short-circuit of `get_sms_code` returns the cached code
immediately and never falls through to re-polling the vendor. -/
theorem completed_implies_code_invariant :
    (∀ (oracle : Oracle) (interval M : Nat) (s : MgrState), CodeInv s.verif →
      CodeInv ((getSmsCode oracle interval M s).2.verif)) ∧
    (∀ (oracle : Oracle) (s : MgrState), CodeInv s.verif →
      CodeInv ((cancelVerification oracle s).2.verif)) ∧
    (∀ (oracle : Oracle) (s : MgrState), CodeInv s.verif →
      CodeInv ((markVerificationDone oracle s).2.verif)) ∧
    (∀ (oracle : Oracle) (mp : ℚ) (vt : Nat) (st : AppState) (v : Verification),
      st.newVerif = none → (rentNumber oracle mp vt st).2.newVerif = some v → CodeInv v) ∧
    (∀ (oracle : Oracle) (interval M : Nat) (s : MgrState), CodeInv s.verif →
      s.verif.status = VStatus.completed →
      getSmsCode oracle interval M s = (some (s.verif.smsCode.getD []), s)) := by
  refine ⟨codeInv_getSmsCode, codeInv_cancel, ?_, ?_, ?_⟩
  · intro oracle s h
    exact h
  · intro oracle mp vt st v h0 hsome
    intro hcomp
    rw [rentNumber_fresh_rented oracle mp vt st v h0 hsome] at hcomp
    cases hcomp
  · intro oracle interval M s h hcomp
    rw [getSmsCode, if_neg (by rw [hcomp]; simp), if_pos ⟨hcomp, h hcomp⟩]

theorem completed_implies_code_invariant_witness :
    getSmsCode (fun _ _ => { body := sSTATUS_WAIT_CODE }) 3 7
      { verif := { status := VStatus.completed, smsCode := some ("5678".toList) } } =
    (some ("5678".toList),
      { verif := { status := VStatus.completed, smsCode := some ("5678".toList) } }) :=
  completed_implies_code_invariant.2.2.2.2 (fun _ _ => { body := sSTATUS_WAIT_CODE }) 3 7
    { verif := { status := VStatus.completed, smsCode := some ("5678".toList) } }
    (fun _ => by decide) rfl

lemma logCall_calls_length (a : ApiAction) (s : MgrState) :
    (logCall a s).calls.length = s.calls.length + 1 := by
  simp [logCall]

/-- C8 counterexample: a concrete assign-new-number run on a customer whose
current verification is `'rented'` (not terminal).  The flow makes exactly the
rental requests `getBalance, getNumber` — no `setStatus=8` cancel request at
any point, in particular none before the rental — and leaves the customer's
prior verification `'rented'` while the record is repointed to the new number.
This refutes the claim that the current verification is always cancelled first. -/
theorem assign_new_number_no_cancel_cex :
    (appAssignNewNumber
      (fun _ a => match a with
        | ApiAction.getBalance => { body := "ACCESS_BALANCE:5".toList }
        | ApiAction.getNumber => { body := "ACCESS_NUMBER:999:12025550123".toList }
        | _ => { body := sSTATUS_WAIT_CODE })
      (mkRat 1 2) 180
      { mgr := { verif := { status := VStatus.rented, timeoutAt := some 180 } },
        customer := { phoneNumbers := [{ phoneNumber := "13476711222".toList, verificationId := "555".toList, isPrimary := true }], primaryPhone := "13476711222".toList, primaryVerificationId := "555".toList } }).mgr.verif.status = VStatus.rented ∧
    (appAssignNewNumber
      (fun _ a => match a with
        | ApiAction.getBalance => { body := "ACCESS_BALANCE:5".toList }
        | ApiAction.getNumber => { body := "ACCESS_NUMBER:999:12025550123".toList }
        | _ => { body := sSTATUS_WAIT_CODE })
      (mkRat 1 2) 180
      { mgr := { verif := { status := VStatus.rented, timeoutAt := some 180 } },
        customer := { phoneNumbers := [{ phoneNumber := "13476711222".toList, verificationId := "555".toList, isPrimary := true }], primaryPhone := "13476711222".toList, primaryVerificationId := "555".toList } }).mgr.calls = [ApiAction.getBalance, ApiAction.getNumber] ∧
    countCancel (appAssignNewNumber
      (fun _ a => match a with
        | ApiAction.getBalance => { body := "ACCESS_BALANCE:5".toList }
        | ApiAction.getNumber => { body := "ACCESS_NUMBER:999:12025550123".toList }
        | _ => { body := sSTATUS_WAIT_CODE })
      (mkRat 1 2) 180
      { mgr := { verif := { status := VStatus.rented, timeoutAt := some 180 } },
        customer := { phoneNumbers := [{ phoneNumber := "13476711222".toList, verificationId := "555".toList, isPrimary := true }], primaryPhone := "13476711222".toList, primaryVerificationId := "555".toList } }).mgr.calls = 0 ∧
    (appAssignNewNumber
      (fun _ a => match a with
        | ApiAction.getBalance => { body := "ACCESS_BALANCE:5".toList }
        | ApiAction.getNumber => { body := "ACCESS_NUMBER:999:12025550123".toList }
        | _ => { body := sSTATUS_WAIT_CODE })
      (mkRat 1 2) 180
      { mgr := { verif := { status := VStatus.rented, timeoutAt := some 180 } },
        customer := { phoneNumbers := [{ phoneNumber := "13476711222".toList, verificationId := "555".toList, isPrimary := true }], primaryPhone := "13476711222".toList, primaryVerificationId := "555".toList } }).customer.primaryVerificationId = "999".toList :=
  ⟨rfl, rfl, rfl, rfl⟩

/-- C8 amended: assigning a new number does not cancel the customer's current
verification.  With an empty balance cache, a sufficient balance reply and a
successful `ACCESS_NUMBER` rental reply, the flow issues exactly the requests
`getBalance, getNumber` (no vendor cancel), leaves the prior verification
entry completely unchanged, stores a fresh `'rented'` entry for the new id,
and repoints the customer record at the new number. -/
theorem assign_new_number_leaves_old_rented (oracle : Oracle) (mp : ℚ) (vt : Nat)
    (st : AppState) (bstr : Str) (b : ℚ) (vid num : Str)
    (hcache : st.balanceCache = none)
    (h1 : (parseAt oracle st.mgr.calls.length ApiAction.getBalance).status = sACCESS_BALANCE)
    (h2 : (parseAt oracle st.mgr.calls.length ApiAction.getBalance).data = some bstr)
    (h3 : parseDecimal bstr = some b)
    (h4 : ¬ b < mp)
    (h5 : (parseAt oracle (st.mgr.calls.length + 1) ApiAction.getNumber).status = sACCESS_NUMBER)
    (h6 : (parseAt oracle (st.mgr.calls.length + 1) ApiAction.getNumber).vid = some vid)
    (h7 : (parseAt oracle (st.mgr.calls.length + 1) ApiAction.getNumber).number = some num)
    (h8 : ¬ vid.isEmpty = true) (h9 : ¬ num.isEmpty = true) :
    appAssignNewNumber oracle mp vt st =
      { mgr := { verif := st.mgr.verif, now := st.mgr.now, calls := st.mgr.calls ++ [ApiAction.getBalance, ApiAction.getNumber] },
        newVerif := some { status := VStatus.rented, createdAt := st.mgr.now, timeoutAt := some (st.mgr.now + vt) },
        balanceCache := some b,
        customer := dbAssignNewNumber st.customer num vid } := by
  have hbal : getBalanceApp oracle st =
      (b, { mgr := logCall ApiAction.getBalance st.mgr, newVerif := st.newVerif, balanceCache := some b, customer := st.customer }) := by
    simp only [getBalanceApp, hcache, appRequest, h1, if_pos, h2, Option.some_bind, h3]
  have hrent : rentNumber oracle mp vt st =
      (some (vid, num),
        { mgr := logCall ApiAction.getNumber (logCall ApiAction.getBalance st.mgr), newVerif := some { status := VStatus.rented, createdAt := st.mgr.now, timeoutAt := some (st.mgr.now + vt) }, balanceCache := some b, customer := st.customer }) := by
    simp [rentNumber, hbal, h4, appRequest, logCall, h5, h6, h7, h8, h9]
  simp only [appAssignNewNumber, hrent]
  simp [logCall, dbAssignNewNumber]

theorem assign_new_number_leaves_old_rented_witness :
    appAssignNewNumber
      (fun _ a => match a with
        | ApiAction.getBalance => { body := "ACCESS_BALANCE:5".toList }
        | ApiAction.getNumber => { body := "ACCESS_NUMBER:999:12025550123".toList }
        | _ => { body := sSTATUS_WAIT_CODE })
      (mkRat 1 2) 180
      { mgr := { verif := { status := VStatus.rented, timeoutAt := some 180 } },
        customer := { phoneNumbers := [{ phoneNumber := "13476711222".toList, verificationId := "555".toList, isPrimary := true }], primaryPhone := "13476711222".toList, primaryVerificationId := "555".toList } } =
      { mgr := { verif := { status := VStatus.rented, timeoutAt := some 180 }, now := 0, calls := [] ++ [ApiAction.getBalance, ApiAction.getNumber] },
        newVerif := some { status := VStatus.rented, createdAt := 0, timeoutAt := some (0 + 180) },
        balanceCache := some (mkRat 5 1),
        customer := dbAssignNewNumber { phoneNumbers := [{ phoneNumber := "13476711222".toList, verificationId := "555".toList, isPrimary := true }], primaryPhone := "13476711222".toList, primaryVerificationId := "555".toList } ("12025550123".toList) ("999".toList) } :=
  assign_new_number_leaves_old_rented _ (mkRat 1 2) 180 _ ("5".toList) (mkRat 5 1)
    ("999".toList) ("12025550123".toList) rfl rfl rfl (by decide) (by decide) rfl rfl rfl
    (by decide) (by decide)

end CustomerDaisy
